import Mathlib

/-!
Verification of the attestation / visit-lifecycle core of the
`lat-long-tracking` service (`api/server.js` plus its SQL schema).

The embedding models:
* `buildSigningPayload` — the payload canonicalizer;
* `verifyChallenge` — challenge lookup and consumption, factored into the
  two storage statements the code issues (`SELECT` then `UPDATE`);
* `verifySignature` — the try/catch signature-verification wrapper, with the
  cryptographic primitives as explicit parameters (parse failures and
  exceptions are `Except.error`);
* `photoExists`, `insertEvent` — the precondition gate and event pipeline;
* `checkIn` / `checkOut` — the two route handlers, over a `DB` state that
  carries the three tables and whose insert statements enforce the schema's
  unique indexes and foreign keys.

Machine details abstracted: timestamps are `Nat` (milliseconds), SQL `LOWER`,
JS `trim`/`startsWith` are embedded at the character-list level, and the JS
numbers (latitude/longitude/accuracy) are exact rationals whose decimal
rendering `decimalString` stands for JS `String(number)` on values with a
terminating decimal expansion (the only values a decimal literal produces
exactly).
-/

/-- ASCII lower-casing of one character: embeds SQL `LOWER` /
JS `toLowerCase` on the ASCII range. -/
def lowerChar (c : Char) : Char :=
  if 65 ≤ c.toNat ∧ c.toNat ≤ 90 then Char.ofNat (c.toNat + 32) else c

/-- Case folding of a string, character by character. -/
def lowerStr (s : String) : String := ⟨s.data.map lowerChar⟩

/-- JS whitespace test for `String.prototype.trim` (common cases). -/
def isWsChar (c : Char) : Bool :=
  c = ' ' || c = '\t' || c = '\n' || c = '\r'

/-- Embeds JS `s.trim()`: strip whitespace from both ends. -/
def trimStr (s : String) : String :=
  ⟨((s.data.dropWhile isWsChar).reverse.dropWhile isWsChar).reverse⟩

/-- Embeds JS `s.startsWith(pre)`, character based. -/
def strStartsWith (s pre : String) : Bool :=
  pre.data.isPrefixOf s.data

/-- `event_type`: the schema's CHECK constraint admits exactly these two. -/
inductive EventType where
  | CHECK_IN
  | CHECK_OUT
deriving DecidableEq, Repr

/-- The string stored/compared for an event type. -/
def eventTypeStr : EventType → String
  | .CHECK_IN => "CHECK_IN"
  | .CHECK_OUT => "CHECK_OUT"

/-- Fractional decimal digits of `num/den`, most significant first; stops at
remainder zero (`fuel` bounds the expansion). -/
def fracDigits : Nat → Nat → Nat → List Char
  | 0, _, _ => []
  | _ + 1, _, 0 => []
  | fuel + 1, den, num =>
    Char.ofNat (48 + num * 10 / den) :: fracDigits fuel den (num * 10 % den)

/-- Decimal rendering of a rational: embeds JS `String(number)` for numbers
with a terminating decimal expansion (e.g. `String(8.5) = "8.5"`,
`String(37) = "37"`). -/
def decimalString (q : ℚ) : String :=
  let n : Nat := q.num.natAbs
  let d : Nat := q.den
  let frac : List Char := fracDigits 40 d (n % d)
  (if q < 0 then "-" else "") ++ toString (n / d) ++
    (if frac = [] then "" else "." ++ ⟨frac⟩)

/-- The body of a validated event submission (`EventSchema`): field shapes
already checked by the route's schema validation. -/
structure EventBody where
  eventType : EventType
  vendorName : String
  latitude : ℚ
  longitude : ℚ
  accuracyMeters : ℚ
  capturedAt : String
  photoUrl : String
  photoSha256 : String
  devicePublicKey : String
  deviceSignature : String
  challengeId : String
  challengeNonce : String
deriving DecidableEq, Repr

/-- The array literal inside `buildSigningPayload`: the eight rendered
fields, in source order. -/
def renderedFields (p : EventBody) : List String :=
  [p.challengeNonce,
   eventTypeStr p.eventType,
   p.vendorName,
   decimalString p.latitude,
   decimalString p.longitude,
   decimalString p.accuracyMeters,
   p.capturedAt,
   p.photoSha256]

/-- `buildSigningPayload` (server.js:151-162): `[...].join("|")`. -/
def buildSigningPayload (p : EventBody) : String :=
  String.intercalate "|" (renderedFields p)

/-- Modelled from the spec: the Payload Canonicalizer described in words —
join, with the single delimiter `|` and in this fixed order, the challenge
nonce, event type, raw vendor name, the decimal renderings of latitude,
longitude and accuracy, the capture timestamp as submitted, and the photo
content digest. -/
def canonicalizeSpec (p : EventBody) : String :=
  p.challengeNonce ++ "|" ++ eventTypeStr p.eventType ++ "|" ++
  p.vendorName ++ "|" ++ decimalString p.latitude ++ "|" ++
  decimalString p.longitude ++ "|" ++ decimalString p.accuracyMeters ++ "|" ++
  p.capturedAt ++ "|" ++ p.photoSha256

/-- A `server_challenges` row. `expiresAt`/`usedAt` in epoch milliseconds. -/
structure Challenge where
  id : String
  nonce : String
  expiresAt : Nat
  usedAt : Option Nat
deriving DecidableEq, Repr

/-- Outcome of challenge verification, one constructor per `reason`
string in `verifyChallenge` (server.js:164-182). -/
inductive ChallengeResult where
  | ok
  | notFound
  | alreadyUsed
  | expired
  | nonceMismatch
deriving DecidableEq, Repr

/-- First storage statement of `verifyChallenge`:
`SELECT id, nonce, expires_at, used_at FROM server_challenges WHERE id = $1`. -/
def challengeSelect (db : List Challenge) (challengeId : String) : Option Challenge :=
  db.find? (fun c => c.id == challengeId)

/-- The in-memory decision `verifyChallenge` makes from the selected row:
not-found, already-used, expired (`Date.now() > expiresAt`), nonce mismatch,
else ok.  This is pure computation between the two storage statements. -/
def consumeDecision (db : List Challenge) (challengeId challengeNonce : String)
    (now : Nat) : ChallengeResult :=
  match challengeSelect db challengeId with
  | none => .notFound
  | some row =>
    if row.usedAt.isSome then .alreadyUsed
    else if row.expiresAt < now then .expired
    else if row.nonce ≠ challengeNonce then .nonceMismatch
    else .ok

/-- Second storage statement of `verifyChallenge`:
`UPDATE server_challenges SET used_at = NOW() WHERE id = $1`.
Note the update is conditioned on the id only — not on `used_at` still
being absent. -/
def challengeUpdate (db : List Challenge) (challengeId : String) (now : Nat) :
    List Challenge :=
  db.map (fun c => if c.id = challengeId then { c with usedAt := some now } else c)

/-- `verifyChallenge` (server.js:164-182): the sequential composition of the
select/decide step and, on success, the update step. -/
def verifyChallenge (db : List Challenge) (challengeId challengeNonce : String)
    (now : Nat) : ChallengeResult × List Challenge :=
  let r := consumeDecision db challengeId challengeNonce now
  if r = .ok then (r, challengeUpdate db challengeId now) else (r, db)

/-- Two concurrent `verifyChallenge` calls for the same challenge id in the
interleaving SELECT₁, SELECT₂, UPDATE₁, UPDATE₂ — each `pool.query` is one
atomic storage step, and nothing in the code serializes the two round trips
of one call against the other caller's. Returns both callers' results and
the final table. -/
def racingConsume (db : List Challenge) (challengeId challengeNonce : String)
    (now : Nat) : ChallengeResult × ChallengeResult × List Challenge :=
  let r1 := consumeDecision db challengeId challengeNonce now
  let r2 := consumeDecision db challengeId challengeNonce now
  let db1 := if r1 = .ok then challengeUpdate db challengeId now else db
  let db2 := if r2 = .ok then challengeUpdate db1 challengeId now else db1
  (r1, r2, db2)

/-- `verifySignature` (server.js:184-204), parametric in the cryptographic
primitives: `parseKey` embeds `Buffer.from` + `crypto.createPublicKey`
(throws become `Except.error`); `rawVerify` embeds `crypto.verify`
(also allowed to throw). The surrounding try/catch returns `false` on any
error. -/
def verifySignature {K : Type} (parseKey : String → Except String K)
    (rawVerify : K → String → String → Except String Bool)
    (devicePublicKeyBase64 signatureBase64 payloadString : String) : Bool :=
  match parseKey devicePublicKeyBase64 with
  | .error _ => false
  | .ok key =>
    match rawVerify key payloadString signatureBase64 with
    | .error _ => false
    | .ok b => b

/-- A `visits` row: `INSERT INTO visits (id, vendor_name)`. -/
structure Visit where
  id : String
  vendorName : String
deriving DecidableEq, Repr

/-- A `visit_events` row (the columns the core logic reads or constrains). -/
structure VisitEvent where
  id : String
  visitId : String
  eventType : EventType
  vendorName : String
  latitude : ℚ
  longitude : ℚ
  accuracyMeters : ℚ
  capturedAt : String
  photoUrl : String
  photoSha256 : String
  devicePublicKey : String
  deviceSignature : String
  serverChallengeId : String
deriving DecidableEq, Repr

/-- The durable state: the three tables of the schema. -/
structure DB where
  challenges : List Challenge
  visits : List Visit
  events : List VisitEvent
deriving DecidableEq, Repr

/-- The request environment: clock, configuration, the filesystem oracle
behind `fs.existsSync`, the cryptographic primitives behind
`crypto.createPublicKey` / `crypto.verify` (keys parse to an opaque `Nat`
handle), and the ids `crypto.randomUUID` will mint. -/
structure Env where
  now : Nat
  accuracyThresholdMeters : ℚ
  dirName : String
  fsExists : String → Bool
  parseKey : String → Except String Nat
  rawVerify : Nat → String → String → Except String Bool
  newVisitId : String
  newEventId : String

/-- `photoExists` (server.js:212-216): reject any URL not under
`/uploads/`, otherwise ask the filesystem about `path.join(__dirname, url)`
(plain concatenation, since the url begins with `/`). -/
def photoExists (env : Env) (photoUrl : String) : Bool :=
  if strStartsWith photoUrl "/uploads/" = false then false
  else env.fsExists (env.dirName ++ photoUrl)

/-- Every distinct error response the two handlers can produce, one
constructor per `error` string in the source. -/
inductive ApiError where
  | accuracyTooLow
  | photoNotFound
  | challengeError (r : ChallengeResult)
  | invalidSignature
  | failedToSaveEvent
  | vendorExists
  | failedToCreateVisit
  | visitNotFound
  | vendorMismatch
  | invalidEventType
deriving DecidableEq, Repr

/-- The HTTP status each error is sent with (`res.status(...)`). -/
def errorStatus : ApiError → Nat
  | .vendorExists => 409
  | .visitNotFound => 404
  | .failedToSaveEvent => 500
  | .failedToCreateVisit => 500
  | _ => 400

/-- Success condition of the `INSERT INTO visit_events` statement under the
schema: fresh primary key, the partial unique indexes
`uniq_one_checkin_per_visit` / `uniq_one_checkout_per_visit` (at most one
event of each type per visit), and the two foreign keys. -/
def eventInsertOk (db : DB) (e : VisitEvent) : Bool :=
  db.events.all (fun x => x.id ≠ e.id) &&
  db.events.all (fun x => ¬(x.visitId = e.visitId ∧ x.eventType = e.eventType)) &&
  db.visits.any (fun v => v.id == e.visitId) &&
  db.challenges.any (fun c => c.id == e.serverChallengeId)

/-- The `visit_events` row `insertEvent` builds from the request body. -/
def eventRow (env : Env) (visitId : String) (body : EventBody) : VisitEvent :=
  { id := env.newEventId
    visitId := visitId
    eventType := body.eventType
    vendorName := body.vendorName
    latitude := body.latitude
    longitude := body.longitude
    accuracyMeters := body.accuracyMeters
    capturedAt := body.capturedAt
    photoUrl := body.photoUrl
    photoSha256 := body.photoSha256
    devicePublicKey := body.devicePublicKey
    deviceSignature := body.deviceSignature
    serverChallengeId := body.challengeId }

/-- `insertEvent` (server.js:218-269): accuracy gate, photo gate, challenge
consumption, signature verification, then the event insert whose failure is
caught and reported as the generic 500 "Failed to save event".  Note that a
challenge consumed at step three stays consumed on every later failure —
there is no transaction around the pipeline. -/
def insertEvent (env : Env) (visitId : String) (body : EventBody) (db : DB) :
    Except ApiError String × DB :=
  if env.accuracyThresholdMeters < body.accuracyMeters then
    (.error .accuracyTooLow, db)
  else if photoExists env body.photoUrl = false then
    (.error .photoNotFound, db)
  else
    match verifyChallenge db.challenges body.challengeId body.challengeNonce env.now with
    | (.ok, chs) =>
      let db1 : DB := { db with challenges := chs }
      let payload := buildSigningPayload body
      if verifySignature env.parseKey env.rawVerify
          body.devicePublicKey body.deviceSignature payload then
        let e := eventRow env visitId body
        if eventInsertOk db1 e then
          (.ok e.id, { db1 with events := db1.events ++ [e] })
        else (.error .failedToSaveEvent, db1)
      else (.error .invalidSignature, db1)
    | (r, chs) => (.error (.challengeError r), { db with challenges := chs })

/-- The `POST /api/visits/check-in` handler (server.js:271-303): event-type
guard, case-insensitive vendor pre-check (on the raw name), `INSERT INTO
visits` with the trimmed name — whose failure under `uniq_vendor_name` (or a
duplicate id) is caught as the generic 500 "Failed to create visit" — then
the event pipeline.  A pipeline failure leaves the visit row in place: the
handler returns the error without deleting what it inserted. -/
def checkIn (env : Env) (body : EventBody) (db : DB) :
    Except ApiError (String × String) × DB :=
  if body.eventType ≠ .CHECK_IN then (.error .invalidEventType, db)
  else if db.visits.any (fun v => lowerStr v.vendorName == lowerStr body.vendorName) then
    (.error .vendorExists, db)
  else
    let visitId := env.newVisitId
    let normalizedVendor := trimStr body.vendorName
    if db.visits.any (fun v =>
        lowerStr v.vendorName == lowerStr normalizedVendor || v.id == visitId) then
      (.error .failedToCreateVisit, db)
    else
      let db1 : DB := { db with visits := db.visits ++ [⟨visitId, normalizedVendor⟩] }
      match insertEvent env visitId body db1 with
      | (.ok eventId, db2) => (.ok (visitId, eventId), db2)
      | (.error e, db2) => (.error e, db2)

/-- The `POST /api/visits/:visitId/check-out` handler (server.js:305-327):
event-type guard, visit lookup (404 "Visit not found"), trimmed
case-insensitive vendor comparison, then the event pipeline.  There is no
already-closed check: a second check-out reaches the insert and fails only
at the storage constraint. -/
def checkOut (env : Env) (visitId : String) (body : EventBody) (db : DB) :
    Except ApiError (String × String) × DB :=
  if body.eventType ≠ .CHECK_OUT then (.error .invalidEventType, db)
  else
    match db.visits.find? (fun v => v.id == visitId) with
    | none => (.error .visitNotFound, db)
    | some visit =>
      if lowerStr (trimStr body.vendorName) ≠ lowerStr (trimStr visit.vendorName) then
        (.error .vendorMismatch, db)
      else
        match insertEvent env visitId body db with
        | (.ok eventId, db2) => (.ok (visitId, eventId), db2)
        | (.error e, db2) => (.error e, db2)

/-! Concrete fixtures used by the closed theorems and witnesses below. -/

/-- Key-parse oracle that always succeeds. -/
def okParseKey : String → Except String Nat := fun _ => .ok 0

/-- Crypto oracle that accepts every signature. -/
def okRawVerify : Nat → String → String → Except String Bool :=
  fun _ _ _ => .ok true

/-- Crypto oracle that rejects every signature (returns `false`, no throw). -/
def badRawVerify : Nat → String → String → Except String Bool :=
  fun _ _ _ => .ok false

/-- A permissive environment: threshold 5 m, every file exists, every
signature verifies. -/
def envW : Env :=
  { now := 50
    accuracyThresholdMeters := 5
    dirName := "/srv/api"
    fsExists := fun _ => true
    parseKey := okParseKey
    rawVerify := okRawVerify
    newVisitId := "v-new"
    newEventId := "e-new" }

/-- An unused challenge, not yet expired at `envW.now = 50`. -/
def chFresh : Challenge := ⟨"c1", "n1", 100, none⟩

/-- A second unused challenge. -/
def chFresh2 : Challenge := ⟨"c2", "n2", 100, none⟩

/-- A valid CHECK_IN body for vendor "Acme" using challenge `c1`. -/
def bodyAcme : EventBody :=
  ⟨.CHECK_IN, "Acme", 37, -122, 3, "2024-01-01T00:00:00Z",
   "/uploads/a.jpg", "d", "pk", "sig", "c1", "n1"⟩

/-- Same submission but with accuracy 10 m, above the 5 m threshold. -/
def bodyAcmeBadAccuracy : EventBody :=
  { bodyAcme with accuracyMeters := 10 }

/-- Initial state: two unused challenges, no visits, no events. -/
def db0 : DB := ⟨[chFresh, chFresh2], [], []⟩

/-- A second CHECK_IN attempt for "Acme" using the second challenge, made
by an environment minting fresh ids. -/
def bodyAcme2 : EventBody :=
  { bodyAcme with challengeId := "c2", challengeNonce := "n2" }

/-- `envW` with fresh ids for the second request. -/
def envW2 : Env := { envW with newVisitId := "v-new2", newEventId := "e-new2" }

/-- An existing visit row for vendor "Acme". -/
def visitAcme : Visit := ⟨"v0", "Acme"⟩

/-- State holding the "Acme" visit and the two unused challenges. -/
def dbAcme : DB := ⟨[chFresh, chFresh2], [visitAcme], []⟩

/-- Duplicate check-in: same vendor up to case. -/
def bodyAcmeUpper : EventBody := { bodyAcme with vendorName := "ACME" }

/-- Check-in whose vendor matches "Acme" only after trimming, so the
handler's untrimmed pre-check passes but the insert of the trimmed name
violates `uniq_vendor_name`. -/
def bodyAcmeSpaces : EventBody :=
  { bodyAcme with vendorName := " Acme ", challengeId := "c2", challengeNonce := "n2" }

/-- The recorded CHECK_IN event of visit `v0`. -/
def evCheckIn : VisitEvent :=
  ⟨"e0", "v0", .CHECK_IN, "Acme", 37, -122, 3, "2024-01-01T00:00:00Z",
   "/uploads/a.jpg", "d", "pk", "sig", "c1"⟩

/-- The recorded CHECK_OUT event of visit `v0`: the visit is Closed. -/
def evCheckOut : VisitEvent :=
  ⟨"e1", "v0", .CHECK_OUT, "Acme", 37, -122, 3, "2024-01-01T01:00:00Z",
   "/uploads/a.jpg", "d", "pk", "sig", "c1"⟩

/-- A Closed visit: both events recorded, one unused challenge `c2` left. -/
def dbClosed : DB := ⟨[chFresh, chFresh2], [visitAcme], [evCheckIn, evCheckOut]⟩

/-- A well-formed CHECK_OUT submission for "Acme" using challenge `c2`. -/
def bodyCheckOutAcme : EventBody :=
  { bodyAcme with eventType := .CHECK_OUT, challengeId := "c2", challengeNonce := "n2" }

/-- Key-parse oracle that always fails (malformed DER). -/
def badParseKey : String → Except String Nat := fun _ => .error "bad key"

/-- Crypto oracle that throws (e.g. unsupported key type). -/
def throwRawVerify : Nat → String → String → Except String Bool :=
  fun _ _ _ => .error "verify threw"

/-- `envW` with a crypto oracle that rejects every signature. -/
def envBadSig : Env := { envW with rawVerify := badRawVerify }

/-- A field set whose challenge nonce contains the delimiter. -/
def pColl1 : EventBody :=
  ⟨.CHECK_IN, "c", 1, 2, 3, "2024-01-01T00:00:00Z",
   "/uploads/a.jpg", "d", "pk", "sig", "cid", "a|CHECK_IN|b"⟩

/-- A different field set (other nonce, other vendor name) that joins to
the same payload string. -/
def pColl2 : EventBody :=
  { pColl1 with challengeNonce := "a", vendorName := "b|CHECK_IN|c" }

example : verifyChallenge [⟨"c1", "n", 100, none⟩] "c1" "n" 50 =
    (.ok, [⟨"c1", "n", 100, some 50⟩]) := by decide

example : consumeDecision [⟨"c1", "n", 10, none⟩] "c1" "bad" 50 = .expired := by
  decide

example : decimalString (17 : ℚ) = "17" := by decide

example : decimalString (-(17 : ℚ)) = "-17" := by decide

example : buildSigningPayload
    ⟨.CHECK_IN, "Riverside Market", 37, -122, 8, "2024-01-01T00:00:00Z",
     "/uploads/x.jpg", "d", "pk", "sig", "cid", "abc123"⟩ =
    "abc123|CHECK_IN|Riverside Market|37|-122|8|2024-01-01T00:00:00Z|d" := by
  decide

/-- C1.  The check-in handler inserts the `visits` row before running the
event pipeline and never deletes it: when the CHECK_IN event fails
validation (here: accuracy 10 m > 5 m threshold, rejected by the
Precondition Gate), the Visit row for that vendor persists, and a
subsequent well-formed check-in for the same vendor is permanently rejected
as a duplicate.  This contradicts the claimed atomic unit / rollback
boundary. -/
theorem checkin_visit_row_persists_after_failed_event :
    (checkIn envW bodyAcmeBadAccuracy db0).1 = .error .accuracyTooLow ∧
    (checkIn envW bodyAcmeBadAccuracy db0).2.visits = [⟨"v-new", "Acme"⟩] ∧
    (checkIn envW2 bodyAcme2 (checkIn envW bodyAcmeBadAccuracy db0).2).1 =
      .error .vendorExists := by
  refine ⟨rfl, rfl, rfl⟩

/-- C2.  `verifyChallenge` is a SELECT followed by an UPDATE guarded only by
the challenge id (two separate storage round trips, no transaction, and the
UPDATE is not conditioned on `used_at` still being absent).  Under the
interleaving SELECT₁, SELECT₂, UPDATE₁, UPDATE₂ of two concurrent consume
calls for the same unused challenge, both callers observe success —
refuting "exactly one caller observes success" and the claimed atomic
conditional state transition.  The final conjunct shows the UPDATE is
unguarded: it overwrites `used_at` even on an already-used row. -/
theorem challenge_consume_race_two_successes :
    racingConsume [⟨"c1", "n1", 100, none⟩] "c1" "n1" 50 =
      (.ok, .ok, [⟨"c1", "n1", 100, some 50⟩]) ∧
    challengeUpdate [⟨"c1", "n1", 100, some 10⟩] "c1" 50 =
      [⟨"c1", "n1", 100, some 50⟩] := by
  refine ⟨rfl, rfl⟩

/-- C4.  The source's `buildSigningPayload` produces exactly the string the
spec describes: the eight fields joined with the single delimiter `|`, in
the fixed order nonce, event type, raw vendor name, latitude, longitude,
accuracy (decimal renderings), capture timestamp, photo digest. -/
theorem buildSigningPayload_matches_spec_canonicalizer :
    ∀ p : EventBody, buildSigningPayload p = canonicalizeSpec p := by
  intro p
  apply String.ext
  simp [buildSigningPayload, canonicalizeSpec, renderedFields,
    String.intercalate, String.intercalate.go, List.append_assoc]


/-- C3.  `verifyChallenge` decides its rejection reason in the claimed
precedence order over the selected row: no row → not found; else `used_at`
present → already used; else `now > expires_at` → expired (regardless of
the presented nonce); else nonce mismatch; else success (and only then the
update runs). -/
theorem challenge_rejection_precedence :
    ∀ (db : List Challenge) (challengeId nonce : String) (now : Nat),
    (challengeSelect db challengeId = none →
      verifyChallenge db challengeId nonce now = (.notFound, db)) ∧
    (∀ row, challengeSelect db challengeId = some row →
      (row.usedAt.isSome = true →
        verifyChallenge db challengeId nonce now = (.alreadyUsed, db)) ∧
      (row.usedAt = none → row.expiresAt < now →
        verifyChallenge db challengeId nonce now = (.expired, db)) ∧
      (row.usedAt = none → ¬ row.expiresAt < now → row.nonce ≠ nonce →
        verifyChallenge db challengeId nonce now = (.nonceMismatch, db)) ∧
      (row.usedAt = none → ¬ row.expiresAt < now → row.nonce = nonce →
        verifyChallenge db challengeId nonce now =
          (.ok, challengeUpdate db challengeId now))) := by
  intro db challengeId nonce now
  constructor
  · intro h
    simp [verifyChallenge, consumeDecision, h]
  · intro row hrow
    refine ⟨?_, ?_, ?_, ?_⟩
    · intro hu
      simp [verifyChallenge, consumeDecision, hrow, hu]
    · intro hu hexp
      simp [verifyChallenge, consumeDecision, hrow, hu, hexp]
    · intro hu hexp hn
      simp [verifyChallenge, consumeDecision, hrow, hu, hexp, hn]
    · intro hu hexp hn
      simp [verifyChallenge, consumeDecision, hrow, hu, hexp, hn]

/-- C3 witness: an unused challenge whose `expires_at = 10` lies before
`now = 50` is rejected as expired even though the presented nonce is wrong
(and also when it is right). -/
theorem challenge_rejection_precedence_witness :
    verifyChallenge [⟨"c1", "n1", 10, none⟩] "c1" "bad" 50 =
      (.expired, [⟨"c1", "n1", 10, none⟩]) ∧
    verifyChallenge [⟨"c1", "n1", 10, none⟩] "c1" "n1" 50 =
      (.expired, [⟨"c1", "n1", 10, none⟩]) := by
  refine ⟨?_, ?_⟩
  · exact (((challenge_rejection_precedence [⟨"c1", "n1", 10, none⟩] "c1" "bad" 50).2
      ⟨"c1", "n1", 10, none⟩ rfl).2.1) rfl (by decide)
  · exact (((challenge_rejection_precedence [⟨"c1", "n1", 10, none⟩] "c1" "n1" 50).2
      ⟨"c1", "n1", 10, none⟩ rfl).2.1) rfl (by decide)

/-- C6 counterexample.  With visit "Acme" on file, a check-in for " Acme "
(case-insensitively equal after trimming) passes the handler's untrimmed
pre-check, so the insert of the trimmed name hits the `uniq_vendor_name`
constraint — and that storage violation surfaces as the generic 500
"Failed to create visit", not as the 409 duplicate-vendor outcome the claim
requires. -/
theorem vendor_constraint_violation_not_duplicate_error :
    checkIn envW bodyAcmeSpaces dbAcme = (.error .failedToCreateVisit, dbAcme) ∧
    errorStatus .failedToCreateVisit = 500 ∧
    errorStatus .vendorExists = 409 := by
  refine ⟨rfl, rfl, rfl⟩

/-- C6 amended.  The pre-check rejects a vendor name whose untrimmed
lower-casing matches an existing visit with the 409 duplicate-vendor error,
and no visit row is added; but when only the insert-level uniqueness
constraint (over trimmed names) is violated, the handler returns the
generic 500 "Failed to create visit" instead of the duplicate-vendor
outcome (still adding no row). -/
theorem checkin_duplicate_vendor_behavior :
    ∀ (env : Env) (body : EventBody) (db : DB),
    body.eventType = .CHECK_IN →
    ((db.visits.any (fun v => lowerStr v.vendorName == lowerStr body.vendorName) = true →
       checkIn env body db = (.error .vendorExists, db)) ∧
     (db.visits.any (fun v => lowerStr v.vendorName == lowerStr body.vendorName) = false →
      db.visits.any (fun v =>
          lowerStr v.vendorName == lowerStr (trimStr body.vendorName) ||
          v.id == env.newVisitId) = true →
      checkIn env body db = (.error .failedToCreateVisit, db))) := by
  intro env body db het
  constructor
  · intro h1
    simp [checkIn, het, h1]
  · intro h1 h2
    simp [checkIn, het, h1, h2]

/-- C6 witness: a check-in for "ACME" with visit "Acme" on file is rejected
as a duplicate vendor by the pre-check; the " Acme " collision is rejected
at the insert with the generic failure. -/
theorem checkin_duplicate_vendor_behavior_witness :
    checkIn envW bodyAcmeUpper dbAcme = (.error .vendorExists, dbAcme) ∧
    checkIn envW bodyAcmeSpaces dbAcme = (.error .failedToCreateVisit, dbAcme) := by
  refine ⟨?_, ?_⟩
  · exact (checkin_duplicate_vendor_behavior envW bodyAcmeUpper dbAcme rfl).1 (by decide)
  · exact (checkin_duplicate_vendor_behavior envW bodyAcmeSpaces dbAcme rfl).2
      (by decide) (by decide)

/-- C5 counterexample.  On a Closed visit (`v0` already has a CHECK_OUT), a
second well-formed check-out is not rejected with an already-closed
outcome: the handler has no such check, the insert fails on
`uniq_one_checkout_per_visit`, and the caught failure surfaces as the
generic 500 "Failed to save event".  (No second CHECK_OUT is recorded, but
the fresh challenge `c2` is burned on the way.) -/
theorem second_checkout_surfaces_storage_error :
    (checkOut envW "v0" bodyCheckOutAcme dbClosed).1 = .error .failedToSaveEvent ∧
    errorStatus .failedToSaveEvent = 500 ∧
    (checkOut envW "v0" bodyCheckOutAcme dbClosed).2.events = dbClosed.events ∧
    (checkOut envW "v0" bodyCheckOutAcme dbClosed).2.challenges =
      [chFresh, ⟨"c2", "n2", 100, some 50⟩] := by
  refine ⟨rfl, rfl, rfl, rfl⟩

/-- C5 amended.  `endVisit` on a nonexistent visit id fails with the 404
visit-not-found error; a second `endVisit` on a Closed visit (one whose
events already contain a CHECK_OUT) records no second CHECK_OUT — the
storage constraint blocks it — but the reported error is the generic 500
"Failed to save event", not an already-closed outcome. -/
theorem endVisit_notfound_and_second_checkout :
    ∀ (env : Env) (visitId : String) (body : EventBody) (db : DB),
    (body.eventType = .CHECK_OUT →
      db.visits.find? (fun v => v.id == visitId) = none →
      checkOut env visitId body db = (.error .visitNotFound, db)) ∧
    (∀ visit, body.eventType = .CHECK_OUT →
      db.visits.find? (fun v => v.id == visitId) = some visit →
      lowerStr (trimStr body.vendorName) = lowerStr (trimStr visit.vendorName) →
      ¬ env.accuracyThresholdMeters < body.accuracyMeters →
      photoExists env body.photoUrl = true →
      (verifyChallenge db.challenges body.challengeId body.challengeNonce env.now).1 = .ok →
      verifySignature env.parseKey env.rawVerify body.devicePublicKey
        body.deviceSignature (buildSigningPayload body) = true →
      (∃ e ∈ db.events, e.visitId = visitId ∧ e.eventType = .CHECK_OUT) →
      (checkOut env visitId body db).1 = .error .failedToSaveEvent ∧
      (checkOut env visitId body db).2.events = db.events) := by
  intro env visitId body db
  constructor
  · intro het hfind
    simp [checkOut, het, hfind]
  · intro visit het hfind hv hacc hphoto hok hsig hex
    rcases hvc : verifyChallenge db.challenges body.challengeId body.challengeNonce env.now
      with ⟨r, chs⟩
    rw [hvc] at hok
    simp at hok
    subst hok
    have hall : (db.events.all (fun x =>
        ¬(x.visitId = (eventRow env visitId body).visitId ∧
          x.eventType = (eventRow env visitId body).eventType))) = false := by
      obtain ⟨e0, hmem, hA, hB⟩ := hex
      refine List.all_eq_false.2 ⟨e0, hmem, ?_⟩
      simp [eventRow, hA, hB, het]
    have hins : eventInsertOk { db with challenges := chs } (eventRow env visitId body) = false := by
      simp only [eventInsertOk]
      rw [hall]
      simp
    have hie : insertEvent env visitId body db =
        (.error .failedToSaveEvent, { db with challenges := chs }) := by
      simp only [insertEvent]
      rw [hvc]
      simp [hacc, hphoto, hsig, hins]
    simp [checkOut, het, hfind, hv, hie]

/-- C5 witness: the nonexistent-visit branch and the second-checkout branch,
each at a concrete state. -/
theorem endVisit_notfound_and_second_checkout_witness :
    checkOut envW "missing" bodyCheckOutAcme dbClosed =
      (.error .visitNotFound, dbClosed) ∧
    (checkOut envW "v0" bodyCheckOutAcme dbClosed).1 = .error .failedToSaveEvent := by
  refine ⟨?_, ?_⟩
  · exact (endVisit_notfound_and_second_checkout envW "missing" bodyCheckOutAcme dbClosed).1
      rfl (by decide)
  · exact ((endVisit_notfound_and_second_checkout envW "v0" bodyCheckOutAcme dbClosed).2
      visitAcme rfl (by decide) (by decide) (by decide) rfl rfl rfl
      ⟨evCheckOut, by decide, by decide, by decide⟩).1


/-- When the select/decide step succeeded, the state `verifyChallenge`
returns is exactly the one produced by the unguarded UPDATE. -/
theorem verifyChallenge_ok_snd (chs : List Challenge) (challengeId n : String)
    (now : Nat) (h : (verifyChallenge chs challengeId n now).1 = .ok) :
    (verifyChallenge chs challengeId n now).2 = challengeUpdate chs challengeId now := by
  by_cases hr : consumeDecision chs challengeId n now = .ok
  · simp [verifyChallenge, hr]
  · simp [verifyChallenge, hr] at h

/-- Every row of the updated table that carries the consumed id has its
`used_at` set to the consumption time. -/
theorem challengeUpdate_mem_used (chs : List Challenge) (challengeId : String)
    (now : Nat) (c : Challenge) (hc : c ∈ challengeUpdate chs challengeId now)
    (hid : c.id = challengeId) : c.usedAt = some now := by
  obtain ⟨a, ha, rfl⟩ := List.mem_map.1 hc
  by_cases h : a.id = challengeId
  · simp [h]
  · simp [h] at hid ⊢

/-- C7.  The try/catch wrapper of `verifySignature` converts every failure
of the cryptographic pipeline into the boolean `false` and never
propagates an error: a key-parse failure yields `false`, a throwing
verify yields `false`, and in every case the function evaluates to a
boolean (either `false` or the verdict of a fully successful pipeline). -/
theorem verifySignature_never_throws :
    ∀ {K : Type} (parseKey : String → Except String K)
      (rawVerify : K → String → String → Except String Bool) (k s p : String),
    (∀ e, parseKey k = .error e →
      verifySignature parseKey rawVerify k s p = false) ∧
    (∀ key e, parseKey k = .ok key → rawVerify key p s = .error e →
      verifySignature parseKey rawVerify k s p = false) ∧
    (verifySignature parseKey rawVerify k s p = false ∨
     ∃ key b, parseKey k = .ok key ∧ rawVerify key p s = .ok b ∧
       verifySignature parseKey rawVerify k s p = b) := by
  intro K parseKey rawVerify k s p
  refine ⟨?_, ?_, ?_⟩
  · intro e he
    simp [verifySignature, he]
  · intro key e hk hv
    simp [verifySignature, hk, hv]
  · cases hk : parseKey k with
    | error e => exact Or.inl (by simp [verifySignature, hk])
    | ok key =>
      cases hv : rawVerify key p s with
      | error e => exact Or.inl (by simp [verifySignature, hk, hv])
      | ok b =>
        refine Or.inr ⟨key, b, ?_, ?_, ?_⟩ <;> simp [verifySignature, hk, hv]

/-- C7 witness: unparseable key material and a throwing verify primitive
both yield `false`. -/
theorem verifySignature_never_throws_witness :
    verifySignature badParseKey okRawVerify "AAAA" "sig" "payload" = false ∧
    verifySignature okParseKey throwRawVerify "AAAA" "sig" "payload" = false := by
  refine ⟨?_, ?_⟩
  · exact (verifySignature_never_throws badParseKey okRawVerify "AAAA" "sig" "payload").1
      "bad key" rfl
  · exact (verifySignature_never_throws okParseKey throwRawVerify "AAAA" "sig" "payload").2.1
      0 "verify threw" rfl rfl

/-- C8.  A submission rejected by the Precondition Gate (accuracy or photo)
leaves the whole state — in particular the challenge table — untouched,
because both checks run before challenge consumption; whereas a submission
that passes the gate and consumes its challenge but fails signature
verification is rejected with the invalid-signature error while its
challenge stays marked used (`used_at` set, never rolled back). -/
theorem challenge_spent_on_sig_failure :
    ∀ (env : Env) (visitId : String) (body : EventBody) (db : DB),
    ((env.accuracyThresholdMeters < body.accuracyMeters ∨
      photoExists env body.photoUrl = false) →
      (insertEvent env visitId body db).2 = db) ∧
    (¬ env.accuracyThresholdMeters < body.accuracyMeters →
     photoExists env body.photoUrl = true →
     (verifyChallenge db.challenges body.challengeId body.challengeNonce env.now).1 = .ok →
     verifySignature env.parseKey env.rawVerify body.devicePublicKey
       body.deviceSignature (buildSigningPayload body) = false →
     (insertEvent env visitId body db).1 = .error .invalidSignature ∧
     ∀ c ∈ (insertEvent env visitId body db).2.challenges,
       c.id = body.challengeId → c.usedAt = some env.now) := by
  intro env visitId body db
  constructor
  · intro h
    by_cases hacc : env.accuracyThresholdMeters < body.accuracyMeters
    · simp [insertEvent, hacc]
    · rcases h with h | h
      · exact absurd h hacc
      · simp [insertEvent, hacc, h]
  · intro hacc hphoto hok hsig
    rcases hvc : verifyChallenge db.challenges body.challengeId body.challengeNonce env.now
      with ⟨r, chs⟩
    have hr : r = .ok := by
      rw [hvc] at hok
      exact hok
    subst hr
    have hupd : chs = challengeUpdate db.challenges body.challengeId env.now := by
      have h2 := verifyChallenge_ok_snd db.challenges body.challengeId body.challengeNonce
        env.now (by rw [hvc])
      rw [hvc] at h2
      exact h2
    have hie : insertEvent env visitId body db =
        (.error .invalidSignature, { db with challenges := chs }) := by
      simp only [insertEvent]
      rw [hvc]
      simp [hacc, hphoto, hsig]
    rw [hie]
    refine ⟨rfl, ?_⟩
    intro c hc hcid
    exact challengeUpdate_mem_used db.challenges body.challengeId env.now c
      (hupd ▸ hc) hcid

/-- C8 witness: a bad-accuracy submission leaves the state untouched, and a
failed-signature submission burns challenge `c2`. -/
theorem challenge_spent_on_sig_failure_witness :
    (insertEvent envW "v0" bodyAcmeBadAccuracy dbAcme).2 = dbAcme ∧
    (insertEvent envBadSig "v0" bodyCheckOutAcme dbAcme).1 = .error .invalidSignature ∧
    (∀ c ∈ (insertEvent envBadSig "v0" bodyCheckOutAcme dbAcme).2.challenges,
      c.id = "c2" → c.usedAt = some 50) := by
  refine ⟨?_, ?_⟩
  · exact (challenge_spent_on_sig_failure envW "v0" bodyAcmeBadAccuracy dbAcme).1
      (Or.inl (by decide))
  · exact (challenge_spent_on_sig_failure envBadSig "v0" bodyCheckOutAcme dbAcme).2
      (by decide) rfl rfl rfl

/-- C10.  A photo reference that does not begin with `/uploads/` makes
`photoExists` return `false` without consulting the filesystem oracle (the
environment, hence the oracle, is universally quantified), the pipeline
state — including the challenge table — is left untouched, and when the
accuracy gate passes the submission is rejected precisely with the
photo-not-found error. -/
theorem photo_gate_rejects_nonuploads :
    ∀ (env : Env) (visitId : String) (body : EventBody) (db : DB),
    strStartsWith body.photoUrl "/uploads/" = false →
    (photoExists env body.photoUrl = false ∧
     (insertEvent env visitId body db).2 = db ∧
     (¬ env.accuracyThresholdMeters < body.accuracyMeters →
       insertEvent env visitId body db = (.error .photoNotFound, db))) := by
  intro env visitId body db hpre
  have hpe : photoExists env body.photoUrl = false := by
    simp [photoExists, hpre]
  refine ⟨hpe, ?_, ?_⟩
  · by_cases hacc : env.accuracyThresholdMeters < body.accuracyMeters
    · simp [insertEvent, hacc]
    · simp [insertEvent, hacc, hpe]
  · intro hacc
    simp [insertEvent, hacc, hpe]

/-- C10 witness: with a filesystem oracle that reports every path as
existing, a submission whose photo reference lives outside `/uploads/` is
still rejected as photo-not-found, challenge untouched. -/
theorem photo_gate_rejects_nonuploads_witness :
    photoExists envW "/elsewhere/a.jpg" = false ∧
    insertEvent envW "v0" { bodyAcme with photoUrl := "/elsewhere/a.jpg" } dbAcme =
      (.error .photoNotFound, dbAcme) := by
  refine ⟨?_, ?_⟩
  · exact (photo_gate_rejects_nonuploads envW "v0"
      { bodyAcme with photoUrl := "/elsewhere/a.jpg" } dbAcme (by decide)).1
  · exact (photo_gate_rejects_nonuploads envW "v0"
      { bodyAcme with photoUrl := "/elsewhere/a.jpg" } dbAcme (by decide)).2.2
      (by decide)


/-- C9 counterexample.  `buildSigningPayload` is not change-sensitive on all
field sets: the schema constrains neither the nonce nor the vendor name to
be delimiter-free, and these two field sets — differing in both nonce and
vendor name — join to the byte-identical payload
`"a|CHECK_IN|b|CHECK_IN|c|1|2|3|2024-01-01T00:00:00Z|d"`. -/
theorem payload_collision_between_distinct_field_sets :
    buildSigningPayload pColl1 = buildSigningPayload pColl2 ∧ pColl1 ≠ pColl2 := by
  refine ⟨rfl, by decide⟩

/-- The payload's character list is the character-level intercalation of
the eight rendered fields. -/
theorem buildSigningPayload_data (p : EventBody) :
    (buildSigningPayload p).data =
      List.intercalate ['|'] ((renderedFields p).map String.data) := by
  have hbar : ("|" : String).data = ['|'] := rfl
  simp [buildSigningPayload, renderedFields, String.intercalate,
    String.intercalate.go, List.intercalate, List.intersperse, hbar,
    List.append_assoc]

/-- C9 amended.  `buildSigningPayload` is deterministic (identical field
sets give byte-identical output), and it is change-sensitive exactly on
field sets whose rendered components are free of the delimiter: under that
restriction, equal payloads force all eight rendered components to be
equal, so changing any component changes the output.  Without the
restriction the property fails (see the collision above). -/
theorem payload_deterministic_and_delimiter_sensitive :
    (∀ p q : EventBody, p = q → buildSigningPayload p = buildSigningPayload q) ∧
    (∀ p q : EventBody,
      (∀ s ∈ renderedFields p, '|' ∉ s.data) →
      (∀ s ∈ renderedFields q, '|' ∉ s.data) →
      buildSigningPayload p = buildSigningPayload q →
      renderedFields p = renderedFields q) := by
  constructor
  · intro p q h
    rw [h]
  · intro p q hp hq h
    have hd := congrArg String.data h
    rw [buildSigningPayload_data, buildSigningPayload_data] at hd
    have hxp : ∀ l ∈ (renderedFields p).map String.data, '|' ∉ l := by
      intro l hl
      obtain ⟨s, hs, rfl⟩ := List.mem_map.1 hl
      exact hp s hs
    have hxq : ∀ l ∈ (renderedFields q).map String.data, '|' ∉ l := by
      intro l hl
      obtain ⟨s, hs, rfl⟩ := List.mem_map.1 hl
      exact hq s hs
    have hsp : (List.intercalate ['|'] ((renderedFields p).map String.data)).splitOn '|' =
        (renderedFields p).map String.data :=
      List.splitOn_intercalate ((renderedFields p).map String.data) '|' hxp
        (by simp [renderedFields])
    have hsq : (List.intercalate ['|'] ((renderedFields q).map String.data)).splitOn '|' =
        (renderedFields q).map String.data :=
      List.splitOn_intercalate ((renderedFields q).map String.data) '|' hxq
        (by simp [renderedFields])
    have hmap : (renderedFields p).map String.data = (renderedFields q).map String.data := by
      rw [← hsp, ← hsq, hd]
    exact List.map_injective_iff.2 (fun a b hab => String.ext hab) hmap

/-- C9 witness: the delimiter-free submission `bodyAcme` exercises both
halves — determinism, and change-sensitivity with every hypothesis
discharged on its concrete rendered fields. -/
theorem payload_deterministic_and_delimiter_sensitive_witness :
    buildSigningPayload bodyAcme = buildSigningPayload bodyAcme ∧
    renderedFields bodyAcme = renderedFields bodyAcme := by
  refine ⟨?_, ?_⟩
  · exact payload_deterministic_and_delimiter_sensitive.1 bodyAcme bodyAcme rfl
  · exact payload_deterministic_and_delimiter_sensitive.2 bodyAcme bodyAcme
      (by decide) (by decide) rfl
